import Mathlib

/-!
Shallow embedding of the conversation-store / LLM-gateway core of
`backend/app.py` (Gromo Coach chat relay), together with theorems checking
the natural-language specification against the code.

The Python module keeps a global dict `conversations` mapping session-id
strings to ordered message lists.  We model the dict as an association list
with (as a hypothesis where needed) no duplicate keys, which is inherent to a
Python dict.  The external Groq HTTP call is modelled by an `ApiOutcome`
value describing what the network/provider did; `generate_groq_response` is a
total function of that outcome, mirroring the try/except classification in
the source.
-/

namespace Gromo

/-- `MAX_CONVERSATIONS = 100` from app.py line 36. -/
def MAX_CONVERSATIONS : Nat := 100

/-- `MAX_MESSAGES_PER_CONVERSATION = 50` from app.py line 37. -/
def MAX_MESSAGES_PER_CONVERSATION : Nat := 50

/-- A chat message: a role tag ("system" / "user" / "assistant") and text. -/
structure Message where
  role : String
  content : String
deriving DecidableEq, Repr

/-- A session transcript: the ordered message list of one conversation. -/
abbrev Session := List Message

/-- The global `conversations` dict, modelled as an association list. -/
abbrev Store := List (String × Session)

/-- The keys of the store (Python `conversations.keys()`). -/
def storeKeys (s : Store) : List String := s.map Prod.fst

/-- Python `conversations[k]` / `k in conversations`: first entry with key `k`. -/
def storeLookup (s : Store) (k : String) : Option Session :=
  (s.find? (fun kv => kv.1 == k)).map Prod.snd

/-- Python `conversations[k] = v`: replace the entry if the key is present,
otherwise add a new entry (dict insertion order puts it at the end). -/
def storeSet (s : Store) (k : String) (v : Session) : Store :=
  if k ∈ storeKeys s then
    s.map (fun kv => if kv.1 == k then (k, v) else kv)
  else
    s ++ [(k, v)]

/-- Python `del conversations[k]`: remove the entry with key `k`. -/
def storeErase (s : Store) (k : String) : Store :=
  s.eraseP (fun kv => kv.1 == k)

/-- Lexicographic strict order on character lists by code point, the order
Python uses to compare strings. -/
def charListLtb : List Char → List Char → Bool
  | _, [] => false
  | [], _ :: _ => true
  | a :: as, b :: bs =>
    if a.toNat < b.toNat then true
    else if b.toNat < a.toNat then false
    else charListLtb as bs

/-- The non-strict lexicographic order on strings (Python `a <= b`). -/
def strLe (a b : String) : Prop := charListLtb b.data a.data = false

instance : DecidableRel strLe :=
  fun a b => inferInstanceAs (Decidable (charListLtb b.data a.data = false))

theorem charListLtb_asymm :
    ∀ l₁ l₂, charListLtb l₁ l₂ = true → charListLtb l₂ l₁ = false := by
  intro l₁
  induction l₁ with
  | nil =>
    intro l₂ h
    cases l₂ with
    | nil => simp [charListLtb] at h
    | cons b bs => simp [charListLtb]
  | cons a as ih =>
    intro l₂ h
    cases l₂ with
    | nil => simp [charListLtb] at h
    | cons b bs =>
      simp only [charListLtb] at h ⊢
      by_cases h1 : a.toNat < b.toNat
      · rw [if_neg (by omega), if_pos h1]
      · rw [if_neg h1] at h
        by_cases h2 : b.toNat < a.toNat
        · rw [if_pos h2] at h
          cases h
        · rw [if_neg h2] at h
          rw [if_neg h2, if_neg h1]
          exact ih bs h

theorem charListLtb_eq_of_not :
    ∀ l₁ l₂, charListLtb l₁ l₂ = false → charListLtb l₂ l₁ = false → l₁ = l₂ := by
  intro l₁
  induction l₁ with
  | nil =>
    intro l₂ h h'
    cases l₂ with
    | nil => rfl
    | cons b bs => simp [charListLtb] at h
  | cons a as ih =>
    intro l₂ h h'
    cases l₂ with
    | nil => simp [charListLtb] at h'
    | cons b bs =>
      simp only [charListLtb] at h h'
      by_cases h1 : a.toNat < b.toNat
      · rw [if_pos h1] at h
        cases h
      · by_cases h2 : b.toNat < a.toNat
        · rw [if_pos h2] at h'
          cases h'
        · rw [if_neg h1, if_neg h2] at h
          rw [if_neg h2, if_neg h1] at h'
          have hn : a.toNat = b.toNat := by omega
          have hv : a.val.toNat = b.val.toNat := hn
          have hab : a = b := Char.eq_of_val_eq (UInt32.toNat.inj hv)
          rw [hab, ih bs h h']

theorem charListLtb_trans :
    ∀ l₁ l₂ l₃, charListLtb l₁ l₂ = true → charListLtb l₂ l₃ = true →
      charListLtb l₁ l₃ = true := by
  intro l₁
  induction l₁ with
  | nil =>
    intro l₂ l₃ h1 h2
    cases l₃ with
    | nil =>
      cases l₂ with
      | nil => exact h2
      | cons b bs => simp [charListLtb] at h2
    | cons c cs => simp [charListLtb]
  | cons a as ih =>
    intro l₂ l₃ h1 h2
    cases l₂ with
    | nil => simp [charListLtb] at h1
    | cons b bs =>
      cases l₃ with
      | nil => simp [charListLtb] at h2
      | cons c cs =>
        simp only [charListLtb] at h1 h2 ⊢
        by_cases hab : a.toNat < b.toNat
        · by_cases hbc : b.toNat < c.toNat
          · rw [if_pos (by omega)]
          · rw [if_neg hbc] at h2
            by_cases hcb : c.toNat < b.toNat
            · rw [if_pos hcb] at h2
              cases h2
            · rw [if_pos (by omega)]
        · rw [if_neg hab] at h1
          by_cases hba : b.toNat < a.toNat
          · rw [if_pos hba] at h1
            cases h1
          · rw [if_neg hba] at h1
            by_cases hbc : b.toNat < c.toNat
            · rw [if_pos (by omega)]
            · rw [if_neg hbc] at h2
              by_cases hcb : c.toNat < b.toNat
              · rw [if_pos hcb] at h2
                cases h2
              · rw [if_neg hcb] at h2
                rw [if_neg (by omega), if_neg (by omega)]
                exact ih bs cs h1 h2

instance : IsTotal String strLe := by
  constructor
  intro a b
  unfold strLe
  cases h : charListLtb b.data a.data
  · left; rfl
  · right; exact charListLtb_asymm _ _ h

instance : IsTrans String strLe := by
  constructor
  intro a b c hab hbc
  unfold strLe at *
  cases hca : charListLtb c.data a.data
  · rfl
  · exfalso
    cases hab' : charListLtb a.data b.data
    · have heq : a.data = b.data := charListLtb_eq_of_not _ _ hab' hab
      rw [heq] at hca
      rw [hca] at hbc
      cases hbc
    · have := charListLtb_trans _ _ _ hca hab'
      rw [this] at hbc
      cases hbc

/-- `sorted(conversations.keys())[:10]`: the ten lexically smallest session
keys (app.py lines 42-43). -/
def smallest10 (s : Store) : List String :=
  (List.insertionSort strLe (storeKeys s)).take 10

/-- `clean_old_conversations` (app.py lines 39-45): if the session count
exceeds `MAX_CONVERSATIONS`, delete the sessions whose keys are the first ten
in ascending key order; otherwise do nothing. -/
def clean_old_conversations (s : Store) : Store :=
  if s.length > MAX_CONVERSATIONS then
    (smallest10 s).foldl storeErase s
  else s

/-- Python truthiness helper: `x or d` for strings (`""` and `None` are both
modelled as `""`). -/
def pyOr (x d : String) : String := if x = "" then d else x

/-- Python `str.strip()`: remove leading and trailing whitespace. -/
def pyStrip (s : String) : String :=
  ⟨((s.data.dropWhile Char.isWhitespace).reverse.dropWhile Char.isWhitespace).reverse⟩

/-- The fixed head of the system prompt template (app.py lines 62-64),
up to the `{base_info}` interpolation point. -/
def PROMPT_HEAD : String :=
  "\nYou are **Gromo Coach**, an advanced AI financial advisor for Gromo - India's leading financial services platform. You provide comprehensive, detailed responses with practical examples.\n\n"

/-- The fixed tail of the system prompt template (app.py lines 66-98),
after the `{base_info}` interpolation point. -/
def PROMPT_TAIL : String :=
  "\n---\n### 🎯 RESPONSE STRUCTURE (MANDATORY):\n\nFor EVERY user question, structure your response exactly like this:\n\n**📝 QUICK SUMMARY:**\n[1-2 sentence summary of the answer]\n\n**📚 DETAILED EXPLANATION:**\n[Comprehensive explanation broken into clear sections with headings]\n\n**💡 PRACTICAL EXAMPLES:**\n[Provide 2-3 real-world examples, preferably Indian context]\n\n**🔧 ACTIONABLE STEPS:**\n[Give specific, actionable advice the user can implement]\n\n**❓ RELATED QUESTIONS TO EXPLORE:**\n[Suggest 3-4 relevant follow-up questions they might want to ask]\n\n### 🎯 Your Enhanced Capabilities:\n\n**Financial Expertise Areas:**\n- Insurance, Investments, Banking, Tax Planning, Real Estate, etc.\n\n**Communication Style:**\n- Be conversational but professional\n- Use Indian examples and context\n- Include relevant numbers and calculations\n- Provide actionable advice\n\nIMPORTANT: Every response must follow the 5-section structure. Never skip any section.\n"

/-- The `base_info` block of `generate_enhanced_system_prompt`
(app.py lines 52-60), built when both agent and client names are set. -/
def session_info_block (agent_name client_name client_age client_income client_goal language : String) : String :=
  "\n### 👥 Session Info:\n- **Gromo Agent**: " ++ agent_name ++
  "\n- **Client**: " ++ client_name ++
  "\n- **Age**: " ++ pyOr client_age "Not specified" ++
  "\n- **Monthly Income**: ₹" ++ pyOr client_income "Not specified" ++
  "\n- **Goal**: " ++ pyOr client_goal "General financial guidance" ++
  "\n- **Language**: " ++ language ++ "\n"

/-- `generate_enhanced_system_prompt` (app.py lines 47-98).  Unset / `None`
profile fields are modelled as `""` (both are falsy in Python).  The profile
block is included only when both `agent_name` and `client_name` are truthy. -/
def generate_enhanced_system_prompt (agent_name client_name client_age client_income client_goal language : String) : String :=
  let base_info :=
    if agent_name ≠ "" ∧ client_name ≠ "" then
      session_info_block agent_name client_name client_age client_income client_goal language
    else ""
  PROMPT_HEAD ++ base_info ++ PROMPT_TAIL

/-- The `base_message` of `generate_fallback_response` (app.py line 196):
`custom_message or "I'm experiencing technical difficulties but I'm here to help."`. -/
def fallbackBase (custom_message : Option String) : String :=
  match custom_message with
  | none => "I'm experiencing technical difficulties but I'm here to help."
  | some m => if m = "" then "I'm experiencing technical difficulties but I'm here to help." else m

/-- Section marker 1: quick summary. -/
def MARKER_SUMMARY : String := "**📝 QUICK SUMMARY:**"

/-- Section marker 2: detailed explanation. -/
def MARKER_DETAILED : String := "**📚 DETAILED EXPLANATION:**"

/-- Section marker 3: practical examples. -/
def MARKER_EXAMPLES : String := "**💡 PRACTICAL EXAMPLES:**"

/-- Section marker 4: actionable steps. -/
def MARKER_STEPS : String := "**🔧 ACTIONABLE STEPS:**"

/-- Section marker 5: related questions. -/
def MARKER_QUESTIONS : String := "**❓ RELATED QUESTIONS TO EXPLORE:**"

/-- The detailed-explanation section of the fallback template (app.py lines 201-202). -/
def FB_DETAILED : String :=
  MARKER_DETAILED ++ "\nI'm Gromo Coach, designed to provide comprehensive financial guidance including insurance, investments, tax planning, and banking solutions. Currently experiencing some technical issues, but I'll do my best to help you."

/-- The practical-examples section of the fallback template (app.py lines 204-207). -/
def FB_EXAMPLES : String :=
  MARKER_EXAMPLES ++ "\n- Life insurance planning for young professionals (₹50 lakh coverage for ₹500/month)\n- SIP investments for wealth building (₹5000/month can grow to ₹50 lakh in 15 years)\n- Tax-saving strategies under Section 80C (save up to ₹46,800 in taxes)"

/-- The actionable-steps section of the fallback template (app.py lines 209-213). -/
def FB_STEPS : String :=
  MARKER_STEPS ++ "\n1. Please try your question again in a moment\n2. Be specific about your financial situation (age, income, goals)\n3. Mention your investment timeline for better advice\n4. Consider speaking with a financial advisor for complex queries"

/-- The related-questions section of the fallback template (app.py lines 215-219). -/
def FB_QUESTIONS : String :=
  MARKER_QUESTIONS ++ "\n- What's the best investment strategy for someone my age?\n- How much life insurance coverage do I actually need?\n- Which tax-saving options give the best returns?\n- How should I create and maintain an emergency fund?"

/-- The fixed part of the fallback template after the interpolated
`base_message` (app.py lines 200-219), assembled section by section. -/
def FALLBACK_TAIL : String :=
  "\n\n" ++ FB_DETAILED ++ "\n\n" ++ FB_EXAMPLES ++ "\n\n" ++ FB_STEPS ++ "\n\n" ++ FB_QUESTIONS

/-- `generate_fallback_response` (app.py lines 194-219). -/
def generate_fallback_response (custom_message : Option String) : String :=
  MARKER_SUMMARY ++ "\n" ++ fallbackBase custom_message ++ FALLBACK_TAIL

/-- Shape of the (parsed) HTTP 200 response body, as far as
`generate_groq_response` inspects it. -/
inductive BodyShape where
  /-- `response.json()` raised `json.JSONDecodeError`. -/
  | decodeFail
  /-- parsed JSON without a usable "choices" key. -/
  | noChoicesField
  /-- parsed JSON with a "choices" list; each element's `message.content`. -/
  | choices (cs : List String)
deriving DecidableEq, Repr

/-- Outcome of the `requests.post` call to the Groq API, covering every
branch of the try/except in `generate_groq_response`. -/
inductive ApiOutcome where
  /-- an HTTP response with the given status code and body shape. -/
  | httpResponse (status : Nat) (body : BodyShape)
  /-- `requests.exceptions.Timeout`. -/
  | timedOut
  /-- `requests.exceptions.ConnectionError`. -/
  | connectionFailed
  /-- other `requests.exceptions.RequestException` with message `msg`. -/
  | requestFailed (msg : String)
  /-- any other exception with message `msg`. -/
  | unexpectedFailure (msg : String)
deriving DecidableEq, Repr

/-- `generate_groq_response` (app.py lines 128-192): classify the provider
outcome and return either the first completion choice's content or a
fallback string.  The message list is sent to the provider but does not
affect the classification, so it is an unused argument here. -/
def generate_groq_response (messages : List Message) (o : ApiOutcome) : String :=
  match messages, o with
  | _, .httpResponse status body =>
    if status = 200 then
      match body with
      | .choices (c :: _) => c
      | .choices [] => generate_fallback_response (some "API returned no response choices")
      | .noChoicesField => generate_fallback_response (some "API returned no response choices")
      | .decodeFail => generate_fallback_response (some "Invalid response format from AI service")
    else if status = 401 then
      generate_fallback_response (some "API authentication failed - please check API key")
    else if status = 429 then
      generate_fallback_response (some "API rate limit exceeded - please try again later")
    else if 500 ≤ status then
      generate_fallback_response (some "API server error - please try again")
    else
      generate_fallback_response (some ("API Error " ++ toString status))
  | _, .timedOut =>
    generate_fallback_response (some "The AI is taking longer than usual to respond. Please try again.")
  | _, .connectionFailed =>
    generate_fallback_response (some "Unable to connect to AI service. Please check your internet connection.")
  | _, .requestFailed msg =>
    generate_fallback_response (some ("Network error: " ++ msg))
  | _, .unexpectedFailure msg =>
    generate_fallback_response (some ("Unexpected error: " ++ msg))

/-- The last `n` entries of a list, Python `l[-n:]` (whole list if shorter). -/
def lastN (n : Nat) (l : List Message) : List Message := l.drop (l.length - n)

/-- The history-trim step of the /chat handler (app.py lines 476-478):
`[conv[0]] + conv[-40:]` when the conversation exceeds the cap. -/
def trimSession (l : Session) : Session :=
  if l.length > MAX_MESSAGES_PER_CONVERSATION then l.take 1 ++ lastN 40 l else l

/-- The request fields the /chat handler extracts (app.py lines 431-439).
Absent string fields arrive as `""` (their `data.get` default); an absent
`session_id` is `none` (Python substitutes a fresh uuid). -/
structure ChatRequest where
  session_id : Option String
  message : String
  agent_name : String
  client_name : String
  client_age : String
  client_income : String
  client_goal : String
  language : String
  reset : Bool
deriving DecidableEq, Repr

/-- The observable result of a chat handler: HTTP status, the `success`
flag, the `response` string (absent on error replies), and the store after
the request. -/
structure ChatResult where
  status : Nat
  success : Bool
  response : Option String
  store : Store
deriving DecidableEq, Repr

/-- The POST /chat handler `chat` (app.py lines 403-498), modelled on a
well-formed JSON request.  `freshId` stands for the `str(uuid.uuid4())`
generated when no session id is supplied; `o` is the provider outcome. -/
def chat (store0 : Store) (freshId : String) (req : ChatRequest) (o : ApiOutcome) : ChatResult :=
  let store1 := clean_old_conversations store0
  let session_id := req.session_id.getD freshId
  let user_message := pyStrip req.message
  if user_message = "" then
    { status := 400, success := false, response := none, store := store1 }
  else
    let store2 :=
      if storeLookup store1 session_id = none ∨ req.reset = true then
        storeSet store1 session_id
          [{ role := "system",
             content := generate_enhanced_system_prompt req.agent_name req.client_name
               req.client_age req.client_income req.client_goal req.language }]
      else store1
    let conv1 := ((storeLookup store2 session_id).getD []) ++ [{ role := "user", content := user_message }]
    let store3 := storeSet store2 session_id conv1
    let ai0 := generate_groq_response conv1 o
    let ai := if ai0 = "" then generate_fallback_response (some "Failed to generate response from AI service") else ai0
    let conv2 := conv1 ++ [{ role := "assistant", content := ai }]
    let conv3 := trimSession conv2
    let store4 := storeSet store3 session_id conv3
    { status := 200, success := true, response := some ai, store := store4 }

/-- Model of `data.get('sessionId') or data.get('session_id', str(uuid.uuid4()))`
(app.py line 536): an absent or empty `sessionId` falls through to
`session_id`, whose own absence falls through to a fresh uuid. -/
def apiSid (sessionId session_id : Option String) (freshId : String) : String :=
  if (sessionId.getD "") = "" then session_id.getD freshId else sessionId.getD ""

/-- The POST /api/chat handler `api_chat` (app.py lines 519-580).
`sessionId` models `data.get('sessionId')` (`none` for absent, and an empty
string is falsy, so both fall through to `session_id`); `session_id` models
`data.get('session_id', str(uuid.uuid4()))` with `freshId` the uuid.
Note: no `clean_old_conversations` call, no reset handling, no trim. -/
def api_chat (store0 : Store) (freshId : String) (sessionId : Option String)
    (session_id : Option String) (message : String) (language : String)
    (o : ApiOutcome) : ChatResult :=
  let sid := apiSid sessionId session_id freshId
  let user_message := pyStrip message
  if user_message = "" then
    { status := 400, success := false, response := none, store := store0 }
  else
    let store1 :=
      if storeLookup store0 sid = none then
        storeSet store0 sid
          [{ role := "system",
             content := generate_enhanced_system_prompt "" "" "" "" "" language }]
      else store0
    let conv1 := ((storeLookup store1 sid).getD []) ++ [{ role := "user", content := user_message }]
    let store2 := storeSet store1 sid conv1
    let ai0 := generate_groq_response conv1 o
    let ai := if ai0 = "" then generate_fallback_response (some "Failed to generate response") else ai0
    let conv2 := conv1 ++ [{ role := "assistant", content := ai }]
    let store3 := storeSet store2 sid conv2
    { status := 200, success := true, response := some ai, store := store3 }

/-- The POST /clear_conversation/{session_id} handler (app.py lines 645-661):
delete the session if present; report success either way. -/
def clear_conversation (store : Store) (session_id : String) : Store × Bool :=
  if (storeLookup store session_id).isSome then
    (storeErase store session_id, true)
  else
    (store, true)

/-- `pat` occurs as a contiguous substring of `s`. -/
abbrev containsStr (s pat : String) : Prop := pat.data <:+: s.data

/-- The five structural section markers of the mandated response format. -/
def hasAllMarkers (s : String) : Prop :=
  containsStr s MARKER_SUMMARY ∧
  containsStr s MARKER_DETAILED ∧
  containsStr s MARKER_EXAMPLES ∧
  containsStr s MARKER_STEPS ∧
  containsStr s MARKER_QUESTIONS

instance (s : String) : Decidable (hasAllMarkers s) := by
  unfold hasAllMarkers
  infer_instance

/-! ### Association-list (dict) lemmas -/

theorem mem_storeKeys {s : Store} {k : String} :
    k ∈ storeKeys s ↔ ∃ kv ∈ s, kv.1 = k := by
  simp [storeKeys, List.mem_map]

theorem storeLookup_eq_none {s : Store} {k : String} :
    storeLookup s k = none ↔ k ∉ storeKeys s := by
  unfold storeLookup
  rw [Option.map_eq_none', List.find?_eq_none, mem_storeKeys]
  constructor
  · rintro h ⟨kv, hkv, rfl⟩
    exact h kv hkv (beq_self_eq_true _)
  · intro h kv hkv hbeq
    exact h ⟨kv, hkv, beq_iff_eq.mp hbeq⟩

theorem storeErase_eq_filter {s : Store} {k : String} (h : (storeKeys s).Nodup) :
    storeErase s k = s.filter (fun kv => !(kv.1 == k)) := by
  induction s with
  | nil => rfl
  | cons a t ih =>
    simp only [storeKeys, List.map_cons, List.nodup_cons] at h
    by_cases hk : a.1 = k
    · have hb : (a.1 == k) = true := beq_iff_eq.mpr hk
      have hfil : t.filter (fun kv => !(kv.1 == k)) = t := by
        apply List.filter_eq_self.mpr
        intro kv hkv
        have hne : kv.1 ≠ k := by
          intro he
          exact h.1 (by
            rw [hk, ← he]
            exact List.mem_map_of_mem Prod.fst hkv)
        simp [hne]
      simp [storeErase, List.eraseP_cons, hb, hfil]
    · have hb : (a.1 == k) = false := beq_eq_false_iff_ne.mpr hk
      have ih' := ih h.2
      simp only [storeErase] at ih'
      simp [storeErase, List.eraseP_cons, hb, ih']

theorem mem_storeErase {s : Store} {k : String} (h : (storeKeys s).Nodup)
    {kv : String × Session} :
    kv ∈ storeErase s k ↔ kv ∈ s ∧ kv.1 ≠ k := by
  rw [storeErase_eq_filter h, List.mem_filter]
  simp

theorem length_storeErase_of_mem {s : Store} {k : String} (h : k ∈ storeKeys s) :
    (storeErase s k).length + 1 = s.length := by
  obtain ⟨kv, hkv, rfl⟩ := mem_storeKeys.mp h
  exact List.length_eraseP_add_one hkv (beq_self_eq_true _)

theorem storeKeys_storeErase_sublist (s : Store) (k : String) :
    List.Sublist (storeKeys (storeErase s k)) (storeKeys s) :=
  (List.eraseP_sublist s).map Prod.fst

theorem storeKeys_storeErase_nodup {s : Store} {k : String}
    (h : (storeKeys s).Nodup) : (storeKeys (storeErase s k)).Nodup :=
  h.sublist (storeKeys_storeErase_sublist s k)

theorem mem_storeKeys_storeErase {s : Store} {k k' : String}
    (h : (storeKeys s).Nodup) (hk' : k' ∈ storeKeys s) (hne : k' ≠ k) :
    k' ∈ storeKeys (storeErase s k) := by
  obtain ⟨kv, hkv, rfl⟩ := mem_storeKeys.mp hk'
  exact mem_storeKeys.mpr ⟨kv, (mem_storeErase h).mpr ⟨hkv, hne⟩, rfl⟩

theorem storeLookup_storeErase_self {s : Store} {k : String}
    (h : (storeKeys s).Nodup) : storeLookup (storeErase s k) k = none := by
  rw [storeLookup_eq_none]
  intro hmem
  obtain ⟨kv, hkv, rfl⟩ := mem_storeKeys.mp hmem
  exact ((mem_storeErase h).mp hkv).2 rfl

theorem length_foldl_storeErase :
    ∀ (ks : List String) (s : Store), (storeKeys s).Nodup → ks.Nodup →
      (∀ k ∈ ks, k ∈ storeKeys s) →
      (ks.foldl storeErase s).length = s.length - ks.length := by
  intro ks
  induction ks with
  | nil => intro s _ _ _; simp
  | cons k ks ih =>
    intro s hs hks hmem
    rw [List.foldl_cons]
    have hk : k ∈ storeKeys s := hmem k (List.mem_cons_self _ _)
    have hlen := length_storeErase_of_mem hk
    have hkscons := List.nodup_cons.mp hks
    have hmem' : ∀ k' ∈ ks, k' ∈ storeKeys (storeErase s k) := by
      intro k' hk'
      exact mem_storeKeys_storeErase hs (hmem k' (List.mem_cons_of_mem _ hk'))
        (fun he => hkscons.1 (he ▸ hk'))
    rw [ih (storeErase s k) (storeKeys_storeErase_nodup hs) hkscons.2 hmem']
    simp only [List.length_cons]
    omega

theorem mem_foldl_storeErase :
    ∀ (ks : List String) (s : Store), (storeKeys s).Nodup →
      ∀ kv : String × Session, kv ∈ ks.foldl storeErase s ↔ kv ∈ s ∧ kv.1 ∉ ks := by
  intro ks
  induction ks with
  | nil => intro s _ kv; simp
  | cons k ks ih =>
    intro s hs kv
    rw [List.foldl_cons, ih _ (storeKeys_storeErase_nodup hs), mem_storeErase hs]
    simp only [List.mem_cons]
    tauto

theorem find?_map_replace {s : Store} {k k' : String} {v : Session} (hne : k' ≠ k) :
    (s.map (fun kv => if kv.1 == k then (k, v) else kv)).find? (fun kv => kv.1 == k') =
      s.find? (fun kv => kv.1 == k') := by
  induction s with
  | nil => rfl
  | cons a t ih =>
    simp only [List.map_cons]
    by_cases hk : a.1 = k
    · rw [if_pos (beq_iff_eq.mpr hk)]
      have h1 : (k == k') = false := beq_eq_false_iff_ne.mpr (Ne.symm hne)
      have h2 : (a.1 == k') = false := beq_eq_false_iff_ne.mpr (by rw [hk]; exact Ne.symm hne)
      simp only [List.find?_cons, h1, h2]
      exact ih
    · rw [if_neg (by simp [hk])]
      by_cases hk' : a.1 = k'
      · have h1 : (a.1 == k') = true := beq_iff_eq.mpr hk'
        simp only [List.find?_cons, h1]
      · have h1 : (a.1 == k') = false := beq_eq_false_iff_ne.mpr hk'
        simp only [List.find?_cons, h1]
        exact ih

theorem find?_map_replace_self {k : String} {v : Session} :
    ∀ {s : Store}, k ∈ storeKeys s →
      (s.map (fun kv => if kv.1 == k then (k, v) else kv)).find?
        (fun kv => kv.1 == k) = some (k, v) := by
  intro s
  induction s with
  | nil => intro hm; cases hm
  | cons a t ih =>
    intro hm
    simp only [List.map_cons]
    by_cases hk : a.1 = k
    · rw [if_pos (beq_iff_eq.mpr hk)]
      simp [List.find?_cons]
    · rw [if_neg (by simp [hk])]
      have h1 : (a.1 == k) = false := beq_eq_false_iff_ne.mpr hk
      simp only [List.find?_cons, h1]
      apply ih
      simp only [storeKeys, List.map_cons, List.mem_cons] at hm
      rcases hm with h | h
      · exact absurd h.symm hk
      · exact h

theorem storeLookup_storeSet_self (s : Store) (k : String) (v : Session) :
    storeLookup (storeSet s k v) k = some v := by
  unfold storeSet storeLookup
  by_cases hm : k ∈ storeKeys s
  · rw [if_pos hm, find?_map_replace_self hm]
    rfl
  · rw [if_neg hm, List.find?_append]
    have hnone : s.find? (fun kv => kv.1 == k) = none := by
      rw [List.find?_eq_none]
      intro kv hkv hbeq
      exact hm (mem_storeKeys.mpr ⟨kv, hkv, beq_iff_eq.mp hbeq⟩)
    rw [hnone]
    simp

theorem storeLookup_storeSet_ne {s : Store} {k k' : String} {v : Session} (hne : k' ≠ k) :
    storeLookup (storeSet s k v) k' = storeLookup s k' := by
  unfold storeSet storeLookup
  by_cases hm : k ∈ storeKeys s
  · rw [if_pos hm, find?_map_replace hne]
  · rw [if_neg hm, List.find?_append]
    cases hfind : s.find? (fun kv => kv.1 == k') with
    | some kv => simp
    | none =>
      have h1 : (k == k') = false := beq_eq_false_iff_ne.mpr (Ne.symm hne)
      simp [List.find?_cons, h1]

theorem storeKeys_storeSet_of_mem {s : Store} {k : String} {v : Session}
    (hm : k ∈ storeKeys s) : storeKeys (storeSet s k v) = storeKeys s := by
  unfold storeSet
  rw [if_pos hm]
  unfold storeKeys
  rw [List.map_map]
  apply List.map_congr_left
  intro kv _
  by_cases hk : kv.1 = k
  · simp [Function.comp, hk]
  · simp [Function.comp, hk]

theorem storeKeys_storeSet_of_not_mem {s : Store} {k : String} {v : Session}
    (hm : ¬ k ∈ storeKeys s) : storeKeys (storeSet s k v) = storeKeys s ++ [k] := by
  unfold storeSet
  rw [if_neg hm]
  simp [storeKeys]

theorem mem_storeKeys_storeSet {s : Store} {k k' : String} {v : Session}
    (h : k' ∈ storeKeys s) : k' ∈ storeKeys (storeSet s k v) := by
  by_cases hm : k ∈ storeKeys s
  · rw [storeKeys_storeSet_of_mem hm]; exact h
  · rw [storeKeys_storeSet_of_not_mem hm]; exact List.mem_append_left _ h

theorem length_le_storeSet (s : Store) (k : String) (v : Session) :
    s.length ≤ (storeSet s k v).length := by
  unfold storeSet
  split <;> simp

/-! ### Substring helpers -/

theorem containsStr_refl (s : String) : containsStr s s := List.infix_refl _

theorem containsStr_appendRight {s m : String} (h : containsStr s m) (t : String) :
    containsStr (s ++ t) m := by
  unfold containsStr at *
  rw [String.data_append]
  exact h.trans (List.prefix_append _ _).isInfix

theorem containsStr_appendLeft {t m : String} (h : containsStr t m) (s : String) :
    containsStr (s ++ t) m := by
  unfold containsStr at *
  rw [String.data_append]
  exact h.trans (List.suffix_append _ _).isInfix

theorem containsStr_length_le {s m : String} (h : containsStr s m) :
    m.length ≤ s.length := h.length_le

theorem containsStr_here (x m : String) : containsStr (x ++ m) m :=
  containsStr_appendLeft (containsStr_refl m) x

/-! ### System-prompt lemmas -/

theorem session_info_block_embeds (a c ag inc go l : String) :
    containsStr (session_info_block a c ag inc go l) a ∧
    containsStr (session_info_block a c ag inc go l) c ∧
    containsStr (session_info_block a c ag inc go l) (pyOr ag "Not specified") ∧
    containsStr (session_info_block a c ag inc go l) (pyOr inc "Not specified") ∧
    containsStr (session_info_block a c ag inc go l) (pyOr go "General financial guidance") ∧
    containsStr (session_info_block a c ag inc go l) l := by
  unfold session_info_block
  refine ⟨?_, ?_, ?_, ?_, ?_, ?_⟩
  · exact containsStr_appendRight (containsStr_appendRight (containsStr_appendRight
      (containsStr_appendRight (containsStr_appendRight (containsStr_appendRight
        (containsStr_appendRight (containsStr_appendRight (containsStr_appendRight
          (containsStr_appendRight (containsStr_appendRight
            (containsStr_here _ a) _) _) _) _) _) _) _) _) _) _) _
  · exact containsStr_appendRight (containsStr_appendRight (containsStr_appendRight
      (containsStr_appendRight (containsStr_appendRight (containsStr_appendRight
        (containsStr_appendRight (containsStr_appendRight (containsStr_appendRight
          (containsStr_here _ c) _) _) _) _) _) _) _) _) _
  · exact containsStr_appendRight (containsStr_appendRight (containsStr_appendRight
      (containsStr_appendRight (containsStr_appendRight (containsStr_appendRight
        (containsStr_appendRight (containsStr_here _ (pyOr ag "Not specified"))
          _) _) _) _) _) _) _
  · exact containsStr_appendRight (containsStr_appendRight (containsStr_appendRight
      (containsStr_appendRight (containsStr_appendRight
        (containsStr_here _ (pyOr inc "Not specified")) _) _) _) _) _
  · exact containsStr_appendRight (containsStr_appendRight (containsStr_appendRight
      (containsStr_here _ (pyOr go "General financial guidance")) _) _) _
  · exact containsStr_appendRight (containsStr_here _ l) _

theorem prompt_embeds (a c ag inc go l : String) (ha : a ≠ "") (hc : c ≠ "") :
    containsStr (generate_enhanced_system_prompt a c ag inc go l) a ∧
    containsStr (generate_enhanced_system_prompt a c ag inc go l) c ∧
    containsStr (generate_enhanced_system_prompt a c ag inc go l) (pyOr ag "Not specified") ∧
    containsStr (generate_enhanced_system_prompt a c ag inc go l) (pyOr inc "Not specified") ∧
    containsStr (generate_enhanced_system_prompt a c ag inc go l)
      (pyOr go "General financial guidance") ∧
    containsStr (generate_enhanced_system_prompt a c ag inc go l) l := by
  unfold generate_enhanced_system_prompt
  rw [if_pos ⟨ha, hc⟩]
  obtain ⟨h1, h2, h3, h4, h5, h6⟩ := session_info_block_embeds a c ag inc go l
  exact ⟨containsStr_appendRight (containsStr_appendLeft h1 PROMPT_HEAD) PROMPT_TAIL,
    containsStr_appendRight (containsStr_appendLeft h2 PROMPT_HEAD) PROMPT_TAIL,
    containsStr_appendRight (containsStr_appendLeft h3 PROMPT_HEAD) PROMPT_TAIL,
    containsStr_appendRight (containsStr_appendLeft h4 PROMPT_HEAD) PROMPT_TAIL,
    containsStr_appendRight (containsStr_appendLeft h5 PROMPT_HEAD) PROMPT_TAIL,
    containsStr_appendRight (containsStr_appendLeft h6 PROMPT_HEAD) PROMPT_TAIL⟩

theorem prompt_no_profile (a c ag inc go l : String) (h : a = "" ∨ c = "") :
    generate_enhanced_system_prompt a c ag inc go l =
      PROMPT_HEAD ++ "" ++ PROMPT_TAIL := by
  unfold generate_enhanced_system_prompt
  rw [if_neg (by rcases h with h | h <;> simp [h])]

/-! ### Fallback-template lemmas -/

theorem fallback_tail_hasMarker2 : containsStr FALLBACK_TAIL MARKER_DETAILED := by
  unfold FALLBACK_TAIL
  have hD : containsStr FB_DETAILED MARKER_DETAILED := by
    unfold FB_DETAILED
    exact containsStr_appendRight (containsStr_refl _) _
  exact containsStr_appendRight (containsStr_appendRight (containsStr_appendRight
    (containsStr_appendRight (containsStr_appendRight (containsStr_appendRight
      (containsStr_appendLeft hD "\n\n") "\n\n") FB_EXAMPLES) "\n\n") FB_STEPS)
        "\n\n") FB_QUESTIONS

theorem fallback_tail_hasMarker3 : containsStr FALLBACK_TAIL MARKER_EXAMPLES := by
  unfold FALLBACK_TAIL
  have hE : containsStr FB_EXAMPLES MARKER_EXAMPLES := by
    unfold FB_EXAMPLES
    exact containsStr_appendRight (containsStr_refl _) _
  exact containsStr_appendRight (containsStr_appendRight (containsStr_appendRight
    (containsStr_appendRight
      (containsStr_appendLeft hE ("\n\n" ++ FB_DETAILED ++ "\n\n")) "\n\n") FB_STEPS)
        "\n\n") FB_QUESTIONS

theorem fallback_tail_hasMarker4 : containsStr FALLBACK_TAIL MARKER_STEPS := by
  unfold FALLBACK_TAIL
  have hS : containsStr FB_STEPS MARKER_STEPS := by
    unfold FB_STEPS
    exact containsStr_appendRight (containsStr_refl _) _
  exact containsStr_appendRight (containsStr_appendRight
    (containsStr_appendLeft hS ("\n\n" ++ FB_DETAILED ++ "\n\n" ++ FB_EXAMPLES ++ "\n\n"))
      "\n\n") FB_QUESTIONS

theorem fallback_tail_hasMarker5 : containsStr FALLBACK_TAIL MARKER_QUESTIONS := by
  unfold FALLBACK_TAIL
  have hQ : containsStr FB_QUESTIONS MARKER_QUESTIONS := by
    unfold FB_QUESTIONS
    exact containsStr_appendRight (containsStr_refl _) _
  exact containsStr_appendLeft hQ
    ("\n\n" ++ FB_DETAILED ++ "\n\n" ++ FB_EXAMPLES ++ "\n\n" ++ FB_STEPS ++ "\n\n")

theorem fallback_hasAllMarkers (r : Option String) :
    hasAllMarkers (generate_fallback_response r) := by
  unfold generate_fallback_response hasAllMarkers
  refine ⟨?_, ?_, ?_, ?_, ?_⟩
  · exact containsStr_appendRight (containsStr_appendRight
      (containsStr_appendRight (containsStr_refl MARKER_SUMMARY) "\n")
        (fallbackBase r)) FALLBACK_TAIL
  · exact containsStr_appendLeft fallback_tail_hasMarker2 _
  · exact containsStr_appendLeft fallback_tail_hasMarker3 _
  · exact containsStr_appendLeft fallback_tail_hasMarker4 _
  · exact containsStr_appendLeft fallback_tail_hasMarker5 _

theorem fallback_ne_empty (r : Option String) : generate_fallback_response r ≠ "" := by
  intro h
  have hlen : (generate_fallback_response r).length = 0 := by rw [h]; rfl
  unfold generate_fallback_response at hlen
  rw [String.length_append, String.length_append, String.length_append] at hlen
  have hh : 0 < MARKER_SUMMARY.length := by decide
  omega

/-! ### Gateway-outcome classification helper -/

theorem groq_response_shape (messages : List Message) (o : ApiOutcome) :
    (∃ c cs, o = .httpResponse 200 (.choices (c :: cs)) ∧
        generate_groq_response messages o = c) ∨
      (∃ reason, generate_groq_response messages o =
        generate_fallback_response (some reason)) := by
  cases o with
  | httpResponse status body =>
    by_cases h200 : status = 200
    · subst h200
      cases body with
      | decodeFail =>
        right
        exact ⟨"Invalid response format from AI service", by simp [generate_groq_response]⟩
      | noChoicesField =>
        right
        exact ⟨"API returned no response choices", by simp [generate_groq_response]⟩
      | choices cs =>
        cases cs with
        | nil =>
          right
          exact ⟨"API returned no response choices", by simp [generate_groq_response]⟩
        | cons c cs => left; exact ⟨c, cs, rfl, by simp [generate_groq_response]⟩
    · right
      simp only [generate_groq_response, if_neg h200]
      by_cases h401 : status = 401
      · rw [if_pos h401]; exact ⟨_, rfl⟩
      · rw [if_neg h401]
        by_cases h429 : status = 429
        · rw [if_pos h429]; exact ⟨_, rfl⟩
        · rw [if_neg h429]
          by_cases h500 : 500 ≤ status
          · rw [if_pos h500]; exact ⟨_, rfl⟩
          · rw [if_neg h500]; exact ⟨_, rfl⟩
  | timedOut =>
    right
    exact ⟨"The AI is taking longer than usual to respond. Please try again.",
      by simp [generate_groq_response]⟩
  | connectionFailed =>
    right
    exact ⟨"Unable to connect to AI service. Please check your internet connection.",
      by simp [generate_groq_response]⟩
  | requestFailed m =>
    right
    exact ⟨"Network error: " ++ m, by simp [generate_groq_response]⟩
  | unexpectedFailure m =>
    right
    exact ⟨"Unexpected error: " ++ m, by simp [generate_groq_response]⟩

/-! ### `smallest10` lemmas -/

theorem smallest10_subset {s : Store} {k : String} (hk : k ∈ smallest10 s) :
    k ∈ storeKeys s := by
  unfold smallest10 at hk
  exact (List.mem_insertionSort _).mp (List.take_subset _ _ hk)

theorem smallest10_length {s : Store} (h : MAX_CONVERSATIONS < s.length) :
    (smallest10 s).length = 10 := by
  unfold smallest10
  rw [List.length_take, List.length_insertionSort]
  simp only [storeKeys, List.length_map]
  unfold MAX_CONVERSATIONS at h
  omega

theorem smallest10_nodup {s : Store} (h : (storeKeys s).Nodup) :
    (smallest10 s).Nodup := by
  have hsn : (List.insertionSort strLe (storeKeys s)).Nodup :=
    (List.perm_insertionSort _ _).nodup_iff.mpr h
  exact hsn.sublist (List.take_sublist _ _)

theorem smallest10_le {s : Store} {k k' : String} (hk : k ∈ smallest10 s)
    (hk' : k' ∈ storeKeys s) (hnot : k' ∉ smallest10 s) : strLe k k' := by
  unfold smallest10 at hk hnot
  have hsorted : List.Sorted strLe (List.insertionSort strLe (storeKeys s)) :=
    List.sorted_insertionSort _ _
  have hmem : k' ∈ List.insertionSort strLe (storeKeys s) :=
    (List.mem_insertionSort _).mpr hk'
  have hsplit : k' ∈ (List.insertionSort strLe (storeKeys s)).take 10 ++
      (List.insertionSort strLe (storeKeys s)).drop 10 := by
    rw [List.take_append_drop]
    exact hmem
  have hdrop : k' ∈ (List.insertionSort strLe (storeKeys s)).drop 10 := by
    rcases List.mem_append.mp hsplit with h1 | h2
    · exact absurd h1 hnot
    · exact h2
  have hp : List.Pairwise strLe
      ((List.insertionSort strLe (storeKeys s)).take 10 ++
        (List.insertionSort strLe (storeKeys s)).drop 10) := by
    rw [List.take_append_drop]
    exact hsorted
  exact (List.pairwise_append.mp hp).2.2 k hk k' hdrop

/-! ### Claim theorems -/

/-- C2: when a session's message count has been pushed over the
per-conversation cap (50), the trim step keeps the first element (the
original system message) unchanged and replaces the rest with the most
recent 40 messages, for a total length of exactly 1 + (50 - 10) = 41. -/
theorem trim_over_cap_keeps_head_and_last40 (m0 : Message) (rest : List Message)
    (h : (m0 :: rest).length > MAX_MESSAGES_PER_CONVERSATION) :
    trimSession (m0 :: rest) = m0 :: lastN 40 rest ∧
    (trimSession (m0 :: rest)).length = 41 ∧
    lastN 40 rest = rest.drop (rest.length - 40) ∧
    (lastN 40 rest).length = 40 := by
  have hr : 50 ≤ rest.length := by
    simp only [List.length_cons, MAX_MESSAGES_PER_CONVERSATION] at h
    omega
  have heq : trimSession (m0 :: rest) = m0 :: lastN 40 rest := by
    unfold trimSession lastN
    rw [if_pos h]
    simp only [List.length_cons]
    rw [show rest.length + 1 - 40 = (rest.length - 40) + 1 from by omega,
      List.drop_succ_cons]
    rfl
  have hlast : (lastN 40 rest).length = 40 := by
    unfold lastN
    rw [List.length_drop]
    omega
  exact ⟨heq, by rw [heq]; simp [hlast], rfl, hlast⟩

/-- Witness for C2 at a concrete 51-message session. -/
theorem trim_over_cap_keeps_head_and_last40_witness :
    (({ role := "system", content := "p" } ::
        List.replicate 50 { role := "user", content := "x" } : List Message).length >
      MAX_MESSAGES_PER_CONVERSATION) ∧
    (trimSession ({ role := "system", content := "p" } ::
        List.replicate 50 { role := "user", content := "x" })).length = 41 :=
  ⟨by decide,
    (trim_over_cap_keeps_head_and_last40 { role := "system", content := "p" }
      (List.replicate 50 { role := "user", content := "x" }) (by decide)).2.1⟩

/-- C7: `generate_fallback_response` is a pure function of its optional
reason; for every reason (including none) the result contains all five
structural section markers, the reason (or the default message) occurs in
the output, and it occurs in the quick-summary section: the marker followed
by a newline and the reason is a prefix of the whole output. -/
theorem fallback_structural (r : Option String) :
    hasAllMarkers (generate_fallback_response r) ∧
    containsStr (generate_fallback_response r) (fallbackBase r) ∧
    List.IsPrefix (MARKER_SUMMARY ++ "\n" ++ fallbackBase r).data
      (generate_fallback_response r).data ∧
    fallbackBase none =
      "I'm experiencing technical difficulties but I'm here to help." ∧
    (∀ m : String, m ≠ "" → fallbackBase (some m) = m) := by
  refine ⟨fallback_hasAllMarkers r, ?_, ?_, rfl, ?_⟩
  · exact containsStr_appendRight
      (containsStr_appendLeft (containsStr_refl (fallbackBase r))
        (MARKER_SUMMARY ++ "\n")) FALLBACK_TAIL
  · rw [show generate_fallback_response r =
      (MARKER_SUMMARY ++ "\n" ++ fallbackBase r) ++ FALLBACK_TAIL from rfl,
      String.data_append]
    exact List.prefix_append _ _
  · intro m hm
    simp [fallbackBase, hm]

/-- Witness for C7 (the only hypothesis is inside the last conjunct). -/
theorem fallback_structural_witness :
    ("reason" : String) ≠ "" ∧ fallbackBase (some "reason") = "reason" :=
  ⟨by decide, (fallback_structural (some "reason")).2.2.2.2 "reason" (by decide)⟩

/-- C3: `generate_groq_response` is total over every modelled provider
outcome: HTTP 200 with at least one choice returns that choice's content,
and every other outcome (no choices, decode failure, 401, 429, 5xx, other
statuses, timeout, connection failure, other request errors, unexpected
exceptions) returns the structured fallback with the classified reason. -/
theorem groq_response_total_classified (messages : List Message) (status : Nat)
    (body : BodyShape) (c err : String) (cs : List String) :
    generate_groq_response messages (.httpResponse 200 (.choices (c :: cs))) = c ∧
    generate_groq_response messages (.httpResponse 200 (.choices [])) =
      generate_fallback_response (some "API returned no response choices") ∧
    generate_groq_response messages (.httpResponse 200 .noChoicesField) =
      generate_fallback_response (some "API returned no response choices") ∧
    generate_groq_response messages (.httpResponse 200 .decodeFail) =
      generate_fallback_response (some "Invalid response format from AI service") ∧
    generate_groq_response messages (.httpResponse 401 body) =
      generate_fallback_response (some "API authentication failed - please check API key") ∧
    generate_groq_response messages (.httpResponse 429 body) =
      generate_fallback_response (some "API rate limit exceeded - please try again later") ∧
    (500 ≤ status →
      generate_groq_response messages (.httpResponse status body) =
        generate_fallback_response (some "API server error - please try again")) ∧
    (status ≠ 200 → status ≠ 401 → status ≠ 429 → status < 500 →
      generate_groq_response messages (.httpResponse status body) =
        generate_fallback_response (some ("API Error " ++ toString status))) ∧
    generate_groq_response messages .timedOut =
      generate_fallback_response
        (some "The AI is taking longer than usual to respond. Please try again.") ∧
    generate_groq_response messages .connectionFailed =
      generate_fallback_response
        (some "Unable to connect to AI service. Please check your internet connection.") ∧
    generate_groq_response messages (.requestFailed err) =
      generate_fallback_response (some ("Network error: " ++ err)) ∧
    generate_groq_response messages (.unexpectedFailure err) =
      generate_fallback_response (some ("Unexpected error: " ++ err)) ∧
    (∀ o : ApiOutcome,
      (∃ c0 cs0, o = .httpResponse 200 (.choices (c0 :: cs0)) ∧
        generate_groq_response messages o = c0) ∨
      (∃ reason, generate_groq_response messages o =
        generate_fallback_response (some reason))) := by
  refine ⟨by simp [generate_groq_response], by simp [generate_groq_response],
    by simp [generate_groq_response], by simp [generate_groq_response],
    by simp [generate_groq_response], by simp [generate_groq_response],
    ?_, ?_, by simp [generate_groq_response], by simp [generate_groq_response],
    by simp [generate_groq_response], by simp [generate_groq_response],
    groq_response_shape messages⟩
  · intro h500
    have h200 : ¬ status = 200 := by omega
    have h401 : ¬ status = 401 := by omega
    have h429 : ¬ status = 429 := by omega
    simp only [generate_groq_response, if_neg h200, if_neg h401, if_neg h429,
      if_pos h500]
  · intro h200 h401 h429 h500
    have h500' : ¬ 500 ≤ status := by omega
    simp only [generate_groq_response, if_neg h200, if_neg h401, if_neg h429,
      if_neg h500']

/-- Witness for C3 at a concrete 5xx outcome. -/
theorem groq_response_total_classified_witness :
    500 ≤ 503 ∧
    generate_groq_response [] (.httpResponse 503 .decodeFail) =
      generate_fallback_response (some "API server error - please try again") :=
  ⟨by decide,
    (groq_response_total_classified [] 503 .decodeFail "c" "m" []).2.2.2.2.2.2.1
      (by decide)⟩

/-- C8: `clear_conversation` reports success whether or not the session
exists, removes the session so it can no longer be looked up, and a second
call on the same id succeeds and leaves the store unchanged. -/
theorem clear_conversation_idempotent (store : Store) (session_id : String)
    (h : (storeKeys store).Nodup) :
    (clear_conversation store session_id).2 = true ∧
    storeLookup (clear_conversation store session_id).1 session_id = none ∧
    clear_conversation (clear_conversation store session_id).1 session_id =
      ((clear_conversation store session_id).1, true) := by
  by_cases hs : (storeLookup store session_id).isSome
  · have h1 : clear_conversation store session_id =
        (storeErase store session_id, true) := by
      unfold clear_conversation
      rw [if_pos hs]
    have h2 : storeLookup (storeErase store session_id) session_id = none :=
      storeLookup_storeErase_self h
    refine ⟨by rw [h1], by rw [h1]; exact h2, ?_⟩
    rw [h1]
    unfold clear_conversation
    rw [if_neg (by rw [h2]; simp)]
  · have h1 : clear_conversation store session_id = (store, true) := by
      unfold clear_conversation
      rw [if_neg hs]
    have h2 : storeLookup store session_id = none := by
      cases hlk : storeLookup store session_id
      · rfl
      · rw [hlk] at hs; simp at hs
    refine ⟨by rw [h1], by rw [h1]; exact h2, ?_⟩
    rw [h1]
    unfold clear_conversation
    rw [if_neg hs]

/-- Witness for C8 at a concrete two-session store. -/
theorem clear_conversation_idempotent_witness :
    (storeKeys [("a", ([] : Session)), ("b", [])]).Nodup ∧
    storeLookup (clear_conversation [("a", ([] : Session)), ("b", [])] "a").1 "a" = none :=
  ⟨by decide,
    (clear_conversation_idempotent [("a", []), ("b", [])] "a" (by decide)).2.1⟩

/-- A zero-padded session key, used to build concrete stores whose keys are
distinct and in ascending lexical order. -/
def keyOfNat (i : Nat) : String :=
  (if i < 10 then "k00" else if i < 100 then "k0" else "k") ++ toString i

/-- A concrete store with `n` distinct sessions. -/
def storeOfSize (n : Nat) : Store :=
  (List.range n).map (fun i => (keyOfNat i, []))

/-- C1 as stated is false: `clean_old_conversations` removes a fixed batch
of ten sessions, so a store of 111 sessions still holds 101 > 100 sessions
after the call. -/
theorem clean_over_capacity_counterexample :
    ¬ ((clean_old_conversations (storeOfSize 111)).length ≤ MAX_CONVERSATIONS) := by
  decide

/-- C1 amended: after a `clean_old_conversations` call on a store holding at
most `MAX_CONVERSATIONS + 10` sessions (with distinct keys, as in a Python
dict), the session count is at most `MAX_CONVERSATIONS`. -/
theorem clean_capacity_bound_amended (s : Store) (hnd : (storeKeys s).Nodup)
    (hlen : s.length ≤ MAX_CONVERSATIONS + 10) :
    (clean_old_conversations s).length ≤ MAX_CONVERSATIONS := by
  unfold clean_old_conversations
  by_cases h : s.length > MAX_CONVERSATIONS
  · rw [if_pos h]
    rw [length_foldl_storeErase _ _ hnd (smallest10_nodup hnd)
      (fun _ hk => smallest10_subset hk), smallest10_length h]
    omega
  · rw [if_neg h]
    omega

/-- Witness for C1 (amended) at a concrete over-capacity store of 105 sessions. -/
theorem clean_capacity_bound_amended_witness :
    ((storeKeys (storeOfSize 105)).Nodup ∧
      (storeOfSize 105).length ≤ MAX_CONVERSATIONS + 10) ∧
    (clean_old_conversations (storeOfSize 105)).length ≤ MAX_CONVERSATIONS :=
  ⟨⟨by decide, by decide⟩,
    clean_capacity_bound_amended (storeOfSize 105) (by decide) (by decide)⟩

/-- C6: on a store with more than 100 sessions (distinct keys),
`clean_old_conversations` removes exactly the sessions whose keys are the
ten lexically smallest and no others; every removed key is at most every
surviving key; on a store with at most 100 sessions it is the identity. -/
theorem clean_removes_ten_smallest (s : Store) (hnd : (storeKeys s).Nodup) :
    (s.length ≤ MAX_CONVERSATIONS → clean_old_conversations s = s) ∧
    (MAX_CONVERSATIONS < s.length →
      (∀ kv : String × Session, kv ∈ clean_old_conversations s ↔
          kv ∈ s ∧ kv.1 ∉ smallest10 s) ∧
      (smallest10 s).length = 10 ∧
      (∀ k ∈ smallest10 s, k ∈ storeKeys s) ∧
      (clean_old_conversations s).length = s.length - 10 ∧
      (∀ k ∈ smallest10 s, ∀ k' ∈ storeKeys (clean_old_conversations s), strLe k k')) := by
  constructor
  · intro hle
    unfold clean_old_conversations
    rw [if_neg (by omega)]
  · intro hgt
    have hclean : clean_old_conversations s = (smallest10 s).foldl storeErase s := by
      unfold clean_old_conversations
      rw [if_pos hgt]
    refine ⟨?_, smallest10_length hgt, fun _ hk => smallest10_subset hk, ?_, ?_⟩
    · intro kv
      rw [hclean]
      exact mem_foldl_storeErase _ _ hnd kv
    · rw [hclean,
        length_foldl_storeErase _ _ hnd (smallest10_nodup hnd)
          (fun _ hk => smallest10_subset hk), smallest10_length hgt]
    · intro k hk k' hk'
      obtain ⟨kv', hkv', rfl⟩ := mem_storeKeys.mp hk'
      rw [hclean] at hkv'
      have hchar := (mem_foldl_storeErase (smallest10 s) s hnd kv').mp hkv'
      exact smallest10_le hk (mem_storeKeys.mpr ⟨kv', hchar.1, rfl⟩) hchar.2

/-- Witness for C6 at a concrete 101-session store: the two hypotheses hold
and the cleanup leaves 91 sessions. -/
theorem clean_removes_ten_smallest_witness :
    ((storeKeys (storeOfSize 101)).Nodup ∧
      MAX_CONVERSATIONS < (storeOfSize 101).length) ∧
    (clean_old_conversations (storeOfSize 101)).length = (storeOfSize 101).length - 10 :=
  ⟨⟨by decide, by decide⟩,
    ((clean_removes_ten_smallest (storeOfSize 101) (by decide)).2 (by decide)).2.2.2.1⟩

/-- C9 as stated is false: the capacity cleanup runs before request
validation, so an empty-message request against an over-capacity store can
evict the very session named by the request.  Concretely: a store of 101
sessions containing "k000" (the lexically smallest key); an empty-message
request for session "k000" is answered with 400, yet the entry for "k000"
is gone afterwards. -/
theorem empty_message_eviction_counterexample :
    (chat (storeOfSize 101) "fresh"
        { session_id := some "k000", message := "", agent_name := "",
          client_name := "", client_age := "", client_income := "",
          client_goal := "", language := "English", reset := false }
        .timedOut).status = 400 ∧
    (chat (storeOfSize 101) "fresh"
        { session_id := some "k000", message := "", agent_name := "",
          client_name := "", client_age := "", client_income := "",
          client_goal := "", language := "English", reset := false }
        .timedOut).success = false ∧
    storeLookup (storeOfSize 101) "k000" = some [] ∧
    storeLookup (chat (storeOfSize 101) "fresh"
        { session_id := some "k000", message := "", agent_name := "",
          client_name := "", client_age := "", client_income := "",
          client_goal := "", language := "English", reset := false }
        .timedOut).store "k000" = none := by
  refine ⟨?_, ?_, ?_, ?_⟩ <;> decide

/-- C9 amended: a request whose message is absent, empty or whitespace-only
is answered with HTTP 400, success false and no response; the store after
the request is exactly the result of the opportunistic capacity cleanup
(which runs before validation), so when the store held at most 100 sessions
it — and in particular the entry for the given session id — is unchanged. -/
theorem empty_message_rejected_amended (store : Store) (freshId : String)
    (req : ChatRequest) (o : ApiOutcome) (h : pyStrip req.message = "") :
    chat store freshId req o =
      { status := 400, success := false, response := none,
        store := clean_old_conversations store } ∧
    (store.length ≤ MAX_CONVERSATIONS → (chat store freshId req o).store = store) := by
  have hch : chat store freshId req o =
      { status := 400, success := false, response := none,
        store := clean_old_conversations store } := by
    simp only [chat]
    rw [if_pos h]
  refine ⟨hch, fun hle => ?_⟩
  rw [hch]
  show clean_old_conversations store = store
  unfold clean_old_conversations
  rw [if_neg (by omega)]

/-- Witness for C9 (amended) at a concrete whitespace-only request. -/
theorem empty_message_rejected_amended_witness :
    (pyStrip "  " = "" ∧ ([("s", ([] : Session))] : Store).length ≤ MAX_CONVERSATIONS) ∧
    (chat [("s", ([] : Session))] "f"
        { session_id := some "s", message := "  ", agent_name := "",
          client_name := "", client_age := "", client_income := "",
          client_goal := "", language := "English", reset := false }
        .timedOut).store = [("s", ([] : Session))] :=
  ⟨⟨by decide, by decide⟩,
    (empty_message_rejected_amended [("s", [])] "f"
        { session_id := some "s", message := "  ", agent_name := "",
          client_name := "", client_age := "", client_income := "",
          client_goal := "", language := "English", reset := false }
        .timedOut (by decide)).2 (by decide)⟩

/-- Reduction of the /chat handler on a fresh (or reset) session with a
non-empty message: the session is seeded with exactly one system message
carrying the composed prompt, then the user and assistant messages are
appended. -/
theorem chat_new_session_messages (store : Store) (freshId : String)
    (req : ChatRequest) (o : ApiOutcome) (hmsg : ¬ pyStrip req.message = "")
    (hnew : storeLookup (clean_old_conversations store) (req.session_id.getD freshId) = none ∨
      req.reset = true) :
    ∃ ai, storeLookup (chat store freshId req o).store (req.session_id.getD freshId) =
      some [{ role := "system",
              content := generate_enhanced_system_prompt req.agent_name req.client_name
                req.client_age req.client_income req.client_goal req.language },
            { role := "user", content := pyStrip req.message },
            { role := "assistant", content := ai }] := by
  simp only [chat]
  rw [if_neg hmsg, if_pos hnew]
  simp only [storeLookup_storeSet_self, Option.getD_some, List.singleton_append,
    List.cons_append, List.nil_append]
  simp only [trimSession]
  rw [if_neg (by simp [MAX_MESSAGES_PER_CONVERSATION])]
  exact ⟨_, rfl⟩

/-- A supplied client name that is longer than the whole composed prompt,
exhibiting that with an unset agent name the prompt embeds no profile
fields at all. -/
def longProfileName : String := PROMPT_HEAD ++ PROMPT_TAIL ++ "x"

/-- C5 as stated is false: on a valid request with a supplied client name
but an unset agent name, the created session's single system message does
not embed the supplied client name (the whole profile block is omitted,
because the code only renders it when BOTH agent and client names are
truthy). -/
theorem system_prompt_profile_counterexample :
    ((storeLookup (chat [] "s1"
        { session_id := some "s1", message := "hi", agent_name := "",
          client_name := longProfileName, client_age := "", client_income := "",
          client_goal := "", language := "English", reset := false }
        .timedOut).store "s1").getD []).head? =
      some { role := "system",
             content := generate_enhanced_system_prompt "" longProfileName "" "" "" "English" } ∧
    ¬ containsStr (generate_enhanced_system_prompt "" longProfileName "" "" "" "English")
      longProfileName := by
  constructor
  · rfl
  · intro hcon
    have hle := containsStr_length_le hcon
    rw [prompt_no_profile "" longProfileName "" "" "" "English" (Or.inl rfl)] at hle
    unfold longProfileName at hle
    rw [String.length_append, String.length_append, String.length_append,
      String.length_append] at hle
    have hx : ("x" : String).length = 1 := rfl
    have h0 : ("" : String).length = 0 := rfl
    omega

/-- C5 amended: on a valid request with `reset=true` or an unseen session
key, the session is created with exactly one system message (then the user
and assistant messages of the same turn are appended), and the system
prompt embeds the supplied profile fields verbatim — with unset optional
fields rendered as explicit placeholders — only when BOTH `agent_name` and
`client_name` are supplied; when either of the two is unset the prompt
contains no profile block at all. -/
theorem session_creation_amended (store : Store) (freshId : String)
    (req : ChatRequest) (o : ApiOutcome) (hmsg : ¬ pyStrip req.message = "")
    (hnew : storeLookup (clean_old_conversations store) (req.session_id.getD freshId) = none ∨
      req.reset = true) :
    (∃ ai, storeLookup (chat store freshId req o).store (req.session_id.getD freshId) =
      some [{ role := "system",
              content := generate_enhanced_system_prompt req.agent_name req.client_name
                req.client_age req.client_income req.client_goal req.language },
            { role := "user", content := pyStrip req.message },
            { role := "assistant", content := ai }]) ∧
    (req.agent_name ≠ "" → req.client_name ≠ "" →
      containsStr (generate_enhanced_system_prompt req.agent_name req.client_name
          req.client_age req.client_income req.client_goal req.language) req.agent_name ∧
      containsStr (generate_enhanced_system_prompt req.agent_name req.client_name
          req.client_age req.client_income req.client_goal req.language) req.client_name ∧
      containsStr (generate_enhanced_system_prompt req.agent_name req.client_name
          req.client_age req.client_income req.client_goal req.language)
        (pyOr req.client_age "Not specified") ∧
      containsStr (generate_enhanced_system_prompt req.agent_name req.client_name
          req.client_age req.client_income req.client_goal req.language)
        (pyOr req.client_income "Not specified") ∧
      containsStr (generate_enhanced_system_prompt req.agent_name req.client_name
          req.client_age req.client_income req.client_goal req.language)
        (pyOr req.client_goal "General financial guidance") ∧
      containsStr (generate_enhanced_system_prompt req.agent_name req.client_name
          req.client_age req.client_income req.client_goal req.language) req.language) ∧
    ((req.agent_name = "" ∨ req.client_name = "") →
      generate_enhanced_system_prompt req.agent_name req.client_name
          req.client_age req.client_income req.client_goal req.language =
        PROMPT_HEAD ++ "" ++ PROMPT_TAIL) :=
  ⟨chat_new_session_messages store freshId req o hmsg hnew,
    fun ha hc => prompt_embeds _ _ _ _ _ _ ha hc,
    fun h => prompt_no_profile _ _ _ _ _ _ h⟩

/-- Witness for C5 (amended) at a concrete fresh-session request with both
names supplied. -/
theorem session_creation_amended_witness :
    (¬ pyStrip "hi" = "" ∧
      storeLookup (clean_old_conversations ([] : Store)) "s1" = none) ∧
    containsStr (generate_enhanced_system_prompt "Agent" "Bob" "" "" "" "English") "Bob" :=
  ⟨⟨by decide, by decide⟩,
    ((session_creation_amended [] "s1"
        { session_id := some "s1", message := "hi", agent_name := "Agent",
          client_name := "Bob", client_age := "", client_income := "",
          client_goal := "", language := "English", reset := false }
        .timedOut (by decide) (Or.inl (by decide))).2.1
      (by decide) (by decide)).2.1⟩

/-- On a valid request the /chat handler replies with status 200, success,
and a response that is the gateway result for some message list (with the
empty-string guard applied). -/
theorem chat_response_field (store : Store) (freshId : String) (req : ChatRequest)
    (o : ApiOutcome) (hmsg : ¬ pyStrip req.message = "") :
    (chat store freshId req o).status = 200 ∧
    (chat store freshId req o).success = true ∧
    ∃ messages : List Message, (chat store freshId req o).response =
      some (if generate_groq_response messages o = "" then
        generate_fallback_response (some "Failed to generate response from AI service")
      else generate_groq_response messages o) := by
  refine ⟨?_, ?_, ?_⟩
  · simp only [chat]
    rw [if_neg hmsg]
  · simp only [chat]
    rw [if_neg hmsg]
  · simp only [chat]
    rw [if_neg hmsg]
    exact ⟨_, rfl⟩

/-- C4 as stated is false: when the provider succeeds, the handler returns
the provider text verbatim without checking the five-section structure.
Concretely, a 200 outcome whose first choice is "hi" yields success with
response "hi", which contains none of the markers. -/
theorem chat_markers_counterexample :
    (chat [] "s1"
        { session_id := some "s1", message := "Hello", agent_name := "",
          client_name := "", client_age := "", client_income := "",
          client_goal := "", language := "English", reset := false }
        (.httpResponse 200 (.choices ["hi"]))).success = true ∧
    (chat [] "s1"
        { session_id := some "s1", message := "Hello", agent_name := "",
          client_name := "", client_age := "", client_income := "",
          client_goal := "", language := "English", reset := false }
        (.httpResponse 200 (.choices ["hi"]))).response = some "hi" ∧
    ¬ hasAllMarkers "hi" := by
  refine ⟨?_, ?_, ?_⟩ <;> decide

/-- C4 amended: for every valid chat request (non-empty message after
strip) the reply has status 200, success, and a non-empty response string;
the response contains all five structural section markers whenever the
provider call did not succeed with non-empty text (every failure is
converted to the structured fallback), while on provider success with
non-empty first-choice content the response is that content verbatim —
which the handler does not check for the markers. -/
theorem chat_response_nonempty_markers_amended (store : Store) (freshId : String)
    (req : ChatRequest) (o : ApiOutcome) (hmsg : ¬ pyStrip req.message = "") :
    (chat store freshId req o).status = 200 ∧
    (chat store freshId req o).success = true ∧
    ∃ resp, (chat store freshId req o).response = some resp ∧ resp ≠ "" ∧
      ((∃ c cs, o = .httpResponse 200 (.choices (c :: cs)) ∧ c ≠ "" ∧ resp = c) ∨
        hasAllMarkers resp) := by
  obtain ⟨h200, hsucc, msgs, hresp⟩ := chat_response_field store freshId req o hmsg
  refine ⟨h200, hsucc, ?_⟩
  rcases groq_response_shape msgs o with ⟨c, cs, ho, hval⟩ | ⟨r, hval⟩
  · rw [hval] at hresp
    by_cases hc : c = ""
    · rw [if_pos hc] at hresp
      exact ⟨_, hresp, fallback_ne_empty _, Or.inr (fallback_hasAllMarkers _)⟩
    · rw [if_neg hc] at hresp
      exact ⟨c, hresp, hc, Or.inl ⟨c, cs, ho, hc, rfl⟩⟩
  · rw [hval, if_neg (fallback_ne_empty _)] at hresp
    exact ⟨_, hresp, fallback_ne_empty _, Or.inr (fallback_hasAllMarkers _)⟩

/-- Witness for C4 (amended) at a concrete request with a failing provider. -/
theorem chat_response_nonempty_markers_amended_witness :
    (¬ pyStrip "Hello" = "") ∧
    (chat [] "s1"
        { session_id := some "s1", message := "Hello", agent_name := "",
          client_name := "", client_age := "", client_income := "",
          client_goal := "", language := "English", reset := false }
        .timedOut).status = 200 :=
  ⟨by decide,
    (chat_response_nonempty_markers_amended [] "s1"
        { session_id := some "s1", message := "Hello", agent_name := "",
          client_name := "", client_age := "", client_income := "",
          client_goal := "", language := "English", reset := false }
        .timedOut (by decide)).1⟩

/-- A store holding one session already at the 50-message cap. -/
def c10SessionStore : Store :=
  [("s", { role := "system", content := "p" } ::
    List.replicate 49 { role := "user", content := "x" })]

/-- A store already holding 100 sessions. -/
def c10BigStore : Store := storeOfSize 100

/-- C10: every successful /api/chat request appends exactly the user and
assistant messages to the addressed session, touches no other session,
never removes a session, and performs neither the trim step nor the
capacity cleanup — so a session can exceed the 50-message cap (a 50-message
session grows to 52) and the store can exceed 100 sessions (a 100-session
store grows to 101). -/
theorem api_chat_appends_two_no_eviction (store : Store) (freshId : String)
    (sessionId session_id : Option String) (message language : String)
    (o : ApiOutcome) (hmsg : ¬ pyStrip message = "") :
    (api_chat store freshId sessionId session_id message language o).status = 200 ∧
    (api_chat store freshId sessionId session_id message language o).success = true ∧
    (∃ ai, storeLookup
        (api_chat store freshId sessionId session_id message language o).store
        (apiSid sessionId session_id freshId) =
      some ((if storeLookup store (apiSid sessionId session_id freshId) = none then
          [{ role := "system",
             content := generate_enhanced_system_prompt "" "" "" "" "" language }]
        else (storeLookup store (apiSid sessionId session_id freshId)).getD []) ++
        [{ role := "user", content := pyStrip message },
         { role := "assistant", content := ai }])) ∧
    (∀ k, k ≠ apiSid sessionId session_id freshId →
      storeLookup (api_chat store freshId sessionId session_id message language o).store k =
        storeLookup store k) ∧
    store.length ≤
      (api_chat store freshId sessionId session_id message language o).store.length ∧
    (∀ k ∈ storeKeys store,
      k ∈ storeKeys (api_chat store freshId sessionId session_id message language o).store) ∧
    ((storeLookup (api_chat c10SessionStore "f" none (some "s") "hi" "English"
        .timedOut).store "s").getD []).length = 52 ∧
    MAX_MESSAGES_PER_CONVERSATION < 52 ∧
    (api_chat c10BigStore "f" none (some "zzz") "hi" "English" .timedOut).store.length = 101 ∧
    MAX_CONVERSATIONS < 101 := by
  refine ⟨?_, ?_, ?_, ?_, ?_, ?_, by decide, by decide, by decide, by decide⟩
  · simp only [api_chat]
    rw [if_neg hmsg]
  · simp only [api_chat]
    rw [if_neg hmsg]
  · by_cases hseed : storeLookup store (apiSid sessionId session_id freshId) = none
    · rw [if_pos hseed]
      simp only [api_chat]
      rw [if_neg hmsg, if_pos hseed]
      simp only [storeLookup_storeSet_self, Option.getD_some, List.singleton_append,
        List.cons_append, List.nil_append]
      exact ⟨_, rfl⟩
    · rw [if_neg hseed]
      simp only [api_chat]
      rw [if_neg hmsg, if_neg hseed]
      simp only [storeLookup_storeSet_self, Option.getD_some, List.append_assoc,
        List.singleton_append, List.cons_append, List.nil_append]
      exact ⟨_, rfl⟩
  · intro k hk
    simp only [api_chat]
    rw [if_neg hmsg]
    by_cases hseed : storeLookup store (apiSid sessionId session_id freshId) = none
    · rw [if_pos hseed]
      show storeLookup (storeSet (storeSet (storeSet _ _ _) _ _) _ _) k = _
      rw [storeLookup_storeSet_ne hk, storeLookup_storeSet_ne hk,
        storeLookup_storeSet_ne hk]
    · rw [if_neg hseed]
      show storeLookup (storeSet (storeSet _ _ _) _ _) k = _
      rw [storeLookup_storeSet_ne hk, storeLookup_storeSet_ne hk]
  · simp only [api_chat]
    rw [if_neg hmsg]
    by_cases hseed : storeLookup store (apiSid sessionId session_id freshId) = none
    · rw [if_pos hseed]
      exact le_trans (length_le_storeSet _ _ _)
        (le_trans (length_le_storeSet _ _ _) (length_le_storeSet _ _ _))
    · rw [if_neg hseed]
      exact le_trans (length_le_storeSet _ _ _) (length_le_storeSet _ _ _)
  · intro k hk
    simp only [api_chat]
    rw [if_neg hmsg]
    by_cases hseed : storeLookup store (apiSid sessionId session_id freshId) = none
    · rw [if_pos hseed]
      exact mem_storeKeys_storeSet (mem_storeKeys_storeSet (mem_storeKeys_storeSet hk))
    · rw [if_neg hseed]
      exact mem_storeKeys_storeSet (mem_storeKeys_storeSet hk)

/-- Witness for C10 at a concrete request. -/
theorem api_chat_appends_two_no_eviction_witness :
    (¬ pyStrip "hello" = "") ∧
    (api_chat [] "f" none none "hello" "English" .timedOut).status = 200 :=
  ⟨by decide,
    (api_chat_appends_two_no_eviction [] "f" none none "hello" "English"
      .timedOut (by decide)).1⟩

end Gromo
